import Mathlib

/-!
Verification of the video-compressor utility (src/video-compressor.py).

The Python source orchestrates two external subprocesses (a media prober
and an encoder).  We embed the orchestration logic shallowly: filesystem
checks and subprocess responses are oracle inputs collected in a `World`
record, numeric values are rationals, and each Python function becomes a
Lean function returning a trace that records which subprocesses were
invoked and the final outcome.
-/

namespace VC

/-! ### Python string and path primitives used by the source -/

/-- Whitespace characters stripped by Python `str.strip()` (ASCII range). -/
def pyIsSpace (c : Char) : Bool :=
  c = ' ' || c = '\t' || c = '\n' || c = '\r' || c = '\x0b' || c = '\x0c'

/-- Model of Python `str.strip()`. -/
def pyStrip (s : String) : String :=
  ⟨((s.data.dropWhile pyIsSpace).reverse.dropWhile pyIsSpace).reverse⟩

/-- Model of Python `str.lower()` (ASCII case folding). -/
def pyLower (s : String) : String :=
  ⟨s.data.map Char.toLower⟩

/-- Characters of `os.path.basename` (POSIX): the accumulator resets at
every slash, leaving the suffix after the last slash. -/
def basenameChars (l : List Char) : List Char :=
  l.foldl (fun acc c => if c = '/' then [] else acc ++ [c]) []

/-- Model of Python `os.path.basename` (POSIX). -/
def pyBasename (s : String) : String :=
  ⟨basenameChars s.data⟩

/-- Extension part of CPython `os.path.splitext` (POSIX): the suffix of
the last path component starting at its last dot, where the leading run
of dots of the component never starts an extension. -/
def extChars (l : List Char) : List Char :=
  let base := basenameChars l
  let rest := base.dropWhile (fun c => c = '.')
  let r := rest.reverse
  if r.any (fun c => c = '.') then '.' :: (r.takeWhile (fun c => c ≠ '.')).reverse
  else []

/-- Model of the extension component returned by `os.path.splitext`. -/
def pySplitextExt (s : String) : String :=
  ⟨extChars s.data⟩

/-- Model of the root component returned by `os.path.splitext`: the path
with its extension suffix removed. -/
def pySplitextRoot (s : String) : String :=
  ⟨s.data.take (s.data.length - (extChars s.data).length)⟩

/-- Model of Python `os.path.join` (POSIX) for two components. -/
def pyJoin (a b : String) : String :=
  if b.data.head? = some '/' then b
  else if a.data = [] ∨ a.data.getLast? = some '/' then a ++ b
  else a ++ "/" ++ b

/-- Model of the check `entry.lower().endswith(".mov")` from the browse
endpoint. -/
def lowerEndsWithMov (s : String) : Bool :=
  match (s.data.map Char.toLower).reverse with
  | 'v' :: 'o' :: 'm' :: '.' :: _ => true
  | _ => false

/-! ### Model of Python `float(str)` -/

/-- Numeric value of a list of decimal digit characters. -/
def digitsToNat (l : List Char) : Nat :=
  l.foldl (fun a c => a * 10 + (c.toNat - 48)) 0

/-- Values of a parsed Python float: finite rationals plus the special
values accepted by `float(...)`. -/
inductive PyFloat where
  | finite (q : ℚ)
  | inf
  | negInf
  | nan
deriving DecidableEq, Repr

/-- Mantissa of a decimal literal: digits with an optional dot.  Returns
the value and the unconsumed characters; fails when no digit is present. -/
def parseMantissa (l : List Char) : Option (ℚ × List Char) :=
  let ip := l.takeWhile Char.isDigit
  let rest1 := l.dropWhile Char.isDigit
  match rest1 with
  | '.' :: rest2 =>
    let fp := rest2.takeWhile Char.isDigit
    let rest3 := rest2.dropWhile Char.isDigit
    if ip.isEmpty && fp.isEmpty then none
    else some ((digitsToNat ip : ℚ) + (digitsToNat fp : ℚ) / (10 : ℚ) ^ fp.length, rest3)
  | _ => if ip.isEmpty then none else some ((digitsToNat ip : ℚ), rest1)

/-- Optional exponent `e`/`E` with optionally signed digits, applied to a
mantissa value. -/
def applyExponent (m : ℚ) (rest : List Char) : Option ℚ :=
  match rest with
  | [] => some m
  | c :: rest2 =>
    if c = 'e' ∨ c = 'E' then
      match rest2 with
      | '+' :: d =>
        if d ≠ [] ∧ d.all Char.isDigit then some (m * (10 : ℚ) ^ digitsToNat d) else none
      | '-' :: d =>
        if d ≠ [] ∧ d.all Char.isDigit then some (m / (10 : ℚ) ^ digitsToNat d) else none
      | d =>
        if d ≠ [] ∧ d.all Char.isDigit then some (m * (10 : ℚ) ^ digitsToNat d) else none
    else none

/-- Unsigned decimal literal with optional exponent. -/
def parseUnsignedFloat (l : List Char) : Option ℚ :=
  match parseMantissa l with
  | none => none
  | some (m, rest) => applyExponent m rest

/-- Body of a float literal after an optional sign: the special words
`inf`, `infinity`, `nan` (case-insensitive) or a decimal literal. -/
def parseSignedFloat (neg : Bool) (l : List Char) : Option PyFloat :=
  let low := l.map Char.toLower
  if low = "inf".data ∨ low = "infinity".data then
    some (if neg then PyFloat.negInf else PyFloat.inf)
  else if low = "nan".data then some PyFloat.nan
  else
    match parseUnsignedFloat l with
    | none => none
    | some q => some (PyFloat.finite (if neg then -q else q))

/-- Model of Python `float(str)` (decimal literals, signs, `inf`,
`infinity`, `nan`; PEP 515 digit underscores are never produced by the
prober and are not modelled).  `none` models a raised `ValueError`. -/
def parsePyFloat (s : String) : Option PyFloat :=
  match (pyStrip s).data with
  | '+' :: r => parseSignedFloat false r
  | '-' :: r => parseSignedFloat true r
  | r => parseSignedFloat false r

/-- Model of Python `int(q)` on a finite float value: truncation toward
zero. -/
def pyTrunc (q : ℚ) : Int :=
  if 0 ≤ q then ⌊q⌋ else ⌈q⌉

/-! ### Oracle environment -/

/-- Oracle responses of the environment for one invocation: the
filesystem checks and the two subprocesses (prober and encoder). -/
structure World where
  inputIsFile : Bool
  probeReturncode : Int
  probeStdout : String
  encodeReturncode : Int
  encodeStderr : String
  outputIsFileAfter : Bool
deriving DecidableEq, Repr

/-! ### Audio extractor (src/video-compressor.py lines 14-64) -/

/-- Encoder invocation recorded for `extract_audio`
(`ffmpeg -i input -vn -c:a libmp3lame -b:a {kbps}k -y output`). -/
structure ExtractInvocation where
  input : String
  audioCodec : String
  audioBitrateKbps : Int
  output : String
deriving DecidableEq, Repr

/-- Outcomes of `extract_audio`. -/
inductive EResult where
  | failInputNotFound
  | failEncode (stderr : String)
  | failOutputMissing
  | success
deriving DecidableEq, Repr

/-- Trace of one `extract_audio` call. -/
structure ExtractTrace where
  encoderInvoked : Option ExtractInvocation
  result : EResult
deriving DecidableEq, Repr

/-- Shallow embedding of `extract_audio`: input existence check, `.mp3`
default extension, one encoder run, exit-code and output-file checks. -/
def extract_audio (w : World) (input_path output_path : String) (audio_bitrate : Int) :
    ExtractTrace :=
  if w.inputIsFile = false then ⟨none, EResult.failInputNotFound⟩
  else
    let out := if pySplitextExt output_path = "" then output_path ++ ".mp3" else output_path
    let inv : ExtractInvocation := ⟨input_path, "libmp3lame", audio_bitrate, out⟩
    if w.encodeReturncode ≠ 0 then ⟨some inv, EResult.failEncode w.encodeStderr⟩
    else if w.outputIsFileAfter = false then ⟨some inv, EResult.failOutputMissing⟩
    else ⟨some inv, EResult.success⟩

/-! ### Size-targeted compressor (src/video-compressor.py lines 66-158) -/

/-- Encoder invocation recorded for `compress_video`
(`ffmpeg -i input -c:v libx264 -b:v {v}k -c:a aac -b:a {a}k
-movflags +faststart -y output`). -/
structure EncoderInvocation where
  input : String
  videoKbps : Int
  audioKbps : Int
  output : String
deriving DecidableEq, Repr

/-- Outcomes of `compress_video`, including the uncaught exceptions the
source can raise outside its try block: `float(...)` on unparseable
prober stdout (line 103), `int(duration / 60)` on a non-finite duration
(line 106), and the division by a zero duration (line 111). -/
inductive CResult where
  | failInputNotFound
  | failProbe
  | uncaughtValueError
  | uncaughtOverflowError
  | uncaughtZeroDivisionError
  | failTargetTooSmall
  | failEncode (stderr : String)
  | failOutputMissing
  | success
deriving DecidableEq, Repr

/-- Trace of one `compress_video` call. -/
structure CompressTrace where
  proberInvoked : Bool
  encoderInvoked : Option EncoderInvocation
  result : CResult
deriving DecidableEq, Repr

/-- Shallow embedding of `compress_video`: input existence check, prober
run and duration parse, bitrate budgeting with the `128 * 1024`
bits/second audio reservation, one encoder run, exit-code and
output-file checks. -/
def compress_video (w : World) (input_path output_path : String) (target_size_mb : ℚ) :
    CompressTrace :=
  if w.inputIsFile = false then ⟨false, none, CResult.failInputNotFound⟩
  else
    let target_size_bits : ℚ := target_size_mb * 8 * 1024 * 1024
    if w.probeReturncode ≠ 0 then ⟨true, none, CResult.failProbe⟩
    else
      match parsePyFloat w.probeStdout with
      | none => ⟨true, none, CResult.uncaughtValueError⟩
      | some PyFloat.nan => ⟨true, none, CResult.uncaughtValueError⟩
      | some PyFloat.inf => ⟨true, none, CResult.uncaughtOverflowError⟩
      | some PyFloat.negInf => ⟨true, none, CResult.uncaughtOverflowError⟩
      | some (PyFloat.finite duration) =>
        if duration = 0 then ⟨true, none, CResult.uncaughtZeroDivisionError⟩
        else
          let total_bitrate := target_size_bits / duration
          let audio_bitrate : ℚ := 128 * 1024
          let video_bitrate := total_bitrate - audio_bitrate
          if video_bitrate ≤ 0 then ⟨true, none, CResult.failTargetTooSmall⟩
          else
            let inv : EncoderInvocation :=
              ⟨input_path, pyTrunc (video_bitrate / 1000), pyTrunc (audio_bitrate / 1000),
                output_path⟩
            if w.encodeReturncode ≠ 0 then ⟨true, some inv, CResult.failEncode w.encodeStderr⟩
            else if w.outputIsFileAfter = false then ⟨true, some inv, CResult.failOutputMissing⟩
            else ⟨true, some inv, CResult.success⟩

/-! ### CLI (src/video-compressor.py lines 160-189 and 855-884) -/

/-- Mode selected by the mutually exclusive argparse group. -/
inductive CliMode where
  | compressMode (size : ℚ)
  | audioMode
deriving DecidableEq, Repr

/-- Result of `parser.parse_args()`.  Argument parsing is an external
collaborator (spec section 1); it is modelled at its interface: it either
exits with status 2 after printing an error (non-numeric or missing
option values, unknown usage) or yields the parsed arguments, the
required mutually exclusive group guaranteeing exactly one mode. -/
inductive ArgparseOutcome where
  | exit2
  | ok (mode : CliMode) (audioBitrate : Int) (input output : String)
deriving DecidableEq, Repr

/-- Observable CLI outcome: what was printed and how the process ends. -/
inductive CliOutcome where
  | usageExit0
  | uiServer
  | argparseErrorExit2
  | errorExit1
  | crashExit1
  | okExit0
deriving DecidableEq, Repr

/-- Exit status of each CLI outcome (`uiServer` blocks serving requests;
its value is never inspected by the theorems). -/
def CliOutcome.exitCode : CliOutcome → Int
  | usageExit0 => 0
  | uiServer => 0
  | argparseErrorExit2 => 2
  | errorExit1 => 1
  | crashExit1 => 1
  | okExit0 => 0

/-- Whether the outcome printed a human-readable error message
(`crashExit1` prints an interpreter traceback, not a message). -/
def CliOutcome.printsError : CliOutcome → Bool
  | argparseErrorExit2 => true
  | errorExit1 => true
  | _ => false

/-- Shallow embedding of the `__main__` block and `main`: usage on no
arguments, UI dispatch on `--ui`, then argparse, the input-existence
check, the positive-size validation, and the operation dispatch.
`argvTail` is `sys.argv[1:]`. -/
def cliMain (argvTail : List String) (parse : ArgparseOutcome) (w : World) : CliOutcome :=
  if argvTail = [] then CliOutcome.usageExit0
  else if argvTail.contains "--ui" then CliOutcome.uiServer
  else
    match parse with
    | ArgparseOutcome.exit2 => CliOutcome.argparseErrorExit2
    | ArgparseOutcome.ok mode abr input output =>
      if w.inputIsFile = false then CliOutcome.errorExit1
      else
        match mode with
        | CliMode.audioMode =>
          match (extract_audio w input output abr).result with
          | EResult.success => CliOutcome.okExit0
          | _ => CliOutcome.errorExit1
        | CliMode.compressMode size =>
          if size ≤ 0 then CliOutcome.errorExit1
          else
            match (compress_video w input output size).result with
            | CResult.success => CliOutcome.okExit0
            | CResult.uncaughtValueError => CliOutcome.crashExit1
            | CResult.uncaughtOverflowError => CliOutcome.crashExit1
            | CResult.uncaughtZeroDivisionError => CliOutcome.crashExit1
            | _ => CliOutcome.errorExit1

/-! ### Browse endpoint (src/video-compressor.py lines 749-782) -/

/-- Directory entry as the browse endpoint distinguishes entries: the
name together with the `os.path.isdir` answer for it. -/
structure DirEntry where
  name : String
  isDir : Bool
deriving DecidableEq, Repr

/-- Filesystem oracle for one `GET /api/browse` request. -/
structure BrowseFs where
  isDirPath : Bool
  permissionDenied : Bool
  listing : List DirEntry
deriving DecidableEq, Repr

/-- Item of the browse response. -/
structure BrowseItem where
  name : String
  path : String
  type : String
deriving DecidableEq, Repr

/-- JSON payload of the browse response. -/
structure BrowseResponse where
  error : Option String
  current_path : String
  items : List BrowseItem
deriving DecidableEq, Repr

/-- Filter of the browse loop: keep directories, and names whose
lowercase form ends in the `.mov` video extension. -/
def keepEntry (e : DirEntry) : Bool :=
  e.isDir || lowerEndsWithMov e.name

/-- Item constructed for one kept entry. -/
def mkItem (path : String) (e : DirEntry) : BrowseItem :=
  ⟨e.name, pyJoin path e.name, if e.isDir then "directory" else "file"⟩

/-- Name order used by `sorted(os.listdir(path))`. -/
def entryNameLe (a b : DirEntry) : Prop :=
  a.name ≤ b.name

instance : DecidableRel entryNameLe :=
  fun a b => inferInstanceAs (Decidable (a.name ≤ b.name))

/-- Sort key rank from `x['type'] != 'directory'`: directories first. -/
def itemRank (it : BrowseItem) : Nat :=
  if it.type = "directory" then 0 else 1

/-- Order of the final `items.sort(...)`: by rank, then by lowercased
name, mirroring Python tuple comparison of the key. -/
def browseLe (a b : BrowseItem) : Prop :=
  itemRank a < itemRank b ∨ (itemRank a = itemRank b ∧ pyLower a.name ≤ pyLower b.name)

instance : DecidableRel browseLe :=
  fun a b =>
    inferInstanceAs
      (Decidable (itemRank a < itemRank b ∨
        (itemRank a = itemRank b ∧ pyLower a.name ≤ pyLower b.name)))

instance : IsTotal BrowseItem browseLe :=
  ⟨by
    intro a b
    unfold browseLe
    rcases Nat.lt_trichotomy (itemRank a) (itemRank b) with h | h | h
    · exact Or.inl (Or.inl h)
    · rcases le_total (pyLower a.name) (pyLower b.name) with h2 | h2
      · exact Or.inl (Or.inr ⟨h, h2⟩)
      · exact Or.inr (Or.inr ⟨h.symm, h2⟩)
    · exact Or.inr (Or.inl h)⟩

instance : IsTrans BrowseItem browseLe :=
  ⟨by
    intro a b c hab hbc
    unfold browseLe at hab hbc ⊢
    rcases hab with h1 | h1
    · rcases hbc with h2 | h2
      · exact Or.inl (h1.trans h2)
      · exact Or.inl (h2.1 ▸ h1)
    · rcases hbc with h2 | h2
      · exact Or.inl (h1.1 ▸ h2)
      · exact Or.inr ⟨h1.1.trans h2.1, le_trans h1.2 h2.2⟩⟩

/-- Shallow embedding of the `/api/browse` handler: missing-directory and
permission errors, then the filtered listing of the name-sorted entries,
finally the stable sort by `(type != 'directory', name.lower())`.  The
`path` argument is the query path after `os.path.expanduser`. -/
def browse (path : String) (fs : BrowseFs) : BrowseResponse :=
  if fs.isDirPath = false then ⟨some "Directory not found", path, []⟩
  else if fs.permissionDenied then ⟨some "Permission denied", path, []⟩
  else
    let entries := List.insertionSort entryNameLe fs.listing
    let items := (entries.filter keepEntry).map (mkItem path)
    ⟨none, path, List.insertionSort browseLe items⟩

/-! ### Convert endpoint (src/video-compressor.py lines 784-811) -/

/-- Output path derived by the `/api/convert` handler: the basename stem
of the input plus `.mp3`, joined to the configured output directory. -/
def convertOutputPath (output_dir input_path : String) : String :=
  pyJoin output_dir (pySplitextRoot (pyBasename input_path) ++ ".mp3")

/-! ### Theorems -/

/-- Evaluation of the float parser on the prober output `120.000000`. -/
theorem parsePyFloat_120 : parsePyFloat "120.000000" = some (PyFloat.finite 120) := by
  have h : parsePyFloat "120.000000" =
      some (PyFloat.finite (((120 : ℕ) : ℚ) + ((0 : ℕ) : ℚ) / (10 : ℚ) ^ (6 : ℕ))) := rfl
  rw [h]
  norm_num

/-- Evaluation of the float parser on the prober output `600.000000`. -/
theorem parsePyFloat_600 : parsePyFloat "600.000000" = some (PyFloat.finite 600) := by
  have h : parsePyFloat "600.000000" =
      some (PyFloat.finite (((600 : ℕ) : ℚ) + ((0 : ℕ) : ℚ) / (10 : ℚ) ^ (6 : ℕ))) := rfl
  rw [h]
  norm_num

/-- C1: evaluation of `compress_video` at the claim's own instance, probed
duration D = 120 seconds and target size S = 10 MB.  The source reserves
`128 * 1024 = 131072` bits/second for audio, not the 128000 bits/second
the claim states, and invokes the encoder with video bitrate 567 kbps and
audio bitrate 131 kbps instead of the claimed 571 kbps and 128 kbps. -/
theorem C1_compress_bitrates_at_120s_10MB :
    compress_video ⟨true, 0, "120.000000", 0, "", true⟩ "in.mov" "out.mp4" 10 =
      ⟨true, some ⟨"in.mov", 567, 131, "out.mp4"⟩, CResult.success⟩ := by
  unfold compress_video
  norm_num [parsePyFloat_120, pyTrunc]

/-- C2: when the prober exits zero but its stdout does not parse as a
float (ffprobe prints `N/A` when a stream reports no duration), the
line-103 `float(...)` call raises an uncaught `ValueError` instead of
returning the `ProbeFailed` failure the claim describes; the encoder is
still never invoked. -/
theorem C2_unparseable_probe_output_raises :
    compress_video ⟨true, 0, "N/A", 0, "", true⟩ "in.mov" "out.mp4" 10 =
      ⟨true, none, CResult.uncaughtValueError⟩ := by
  decide

/-- C4: when the input path is not an existing regular file, both
`compress_video` and `extract_audio` fail with `InputNotFound` and no
subprocess (prober or encoder) is invoked. -/
theorem C4_input_not_found (w : World) (i o : String) (S : ℚ) (abr : Int)
    (h : w.inputIsFile = false) :
    compress_video w i o S = ⟨false, none, CResult.failInputNotFound⟩ ∧
    extract_audio w i o abr = ⟨none, EResult.failInputNotFound⟩ := by
  unfold compress_video extract_audio
  rw [h]
  simp

/-- C4 witness: a concrete missing-input environment. -/
theorem C4_input_not_found_witness :
    compress_video ⟨false, 0, "120.0", 0, "", true⟩ "gone.mov" "out.mp4" 10 =
        ⟨false, none, CResult.failInputNotFound⟩ ∧
      extract_audio ⟨false, 0, "120.0", 0, "", true⟩ "gone.mov" "out.mp3" 192 =
        ⟨none, EResult.failInputNotFound⟩ :=
  C4_input_not_found ⟨false, 0, "120.0", 0, "", true⟩ "gone.mov" "out.mp4" 10 192 rfl

/-- C6: when the output path has no extension component, `extract_audio`
appends the default `.mp3` extension and invokes the encoder with the
resolved path. -/
theorem C6_default_extension (w : World) (i o : String) (abr : Int)
    (hin : w.inputIsFile = true) (hext : pySplitextExt o = "") :
    (extract_audio w i o abr).encoderInvoked =
      some ⟨i, "libmp3lame", abr, o ++ ".mp3"⟩ := by
  unfold extract_audio
  rw [hin, if_pos hext]
  simp only [Bool.true_eq_false, if_false]
  split <;> (try split) <;> rfl

/-- C6 witness: output path `clip` resolves to `clip.mp3`. -/
theorem C6_default_extension_witness :
    (extract_audio ⟨true, 0, "", 0, "", true⟩ "in.mov" "clip" 192).encoderInvoked =
      some ⟨"in.mov", "libmp3lame", 192, "clip.mp3"⟩ :=
  C6_default_extension ⟨true, 0, "", 0, "", true⟩ "in.mov" "clip" 192 rfl (by decide)

/-- C10: when the output path already has an extension component,
`extract_audio` leaves the path unchanged and still selects the MP3
codec `libmp3lame`, whatever the extension is. -/
theorem C10_extension_kept_mp3_codec (w : World) (i o : String) (abr : Int)
    (hin : w.inputIsFile = true) (hext : pySplitextExt o ≠ "") :
    (extract_audio w i o abr).encoderInvoked = some ⟨i, "libmp3lame", abr, o⟩ := by
  unfold extract_audio
  rw [hin, if_neg hext]
  simp only [Bool.true_eq_false, if_false]
  split <;> (try split) <;> rfl

/-- C10 witness: a `.wav` output path is kept verbatim while the codec
stays `libmp3lame`. -/
theorem C10_extension_kept_mp3_codec_witness :
    (extract_audio ⟨true, 0, "", 0, "", true⟩ "in.mov" "clip.wav" 192).encoderInvoked =
      some ⟨"in.mov", "libmp3lame", 192, "clip.wav"⟩ :=
  C10_extension_kept_mp3_codec ⟨true, 0, "", 0, "", true⟩ "in.mov" "clip.wav" 192 rfl
    (by decide)

/-- C3: for any positive probed duration D and positive target size S whose
computed video bitrate `S*8*1024*1024/D - 128*1024` is non-positive,
`compress_video` fails with `TargetTooSmall` and the encoder is never
invoked. -/
theorem C3_target_too_small (w : World) (i o : String) (S D : ℚ)
    (hin : w.inputIsFile = true) (hrc : w.probeReturncode = 0)
    (hp : parsePyFloat w.probeStdout = some (PyFloat.finite D))
    (hD : 0 < D) (hS : 0 < S)
    (hsmall : S * 8 * 1024 * 1024 / D - 128 * 1024 ≤ 0) :
    compress_video w i o S = ⟨true, none, CResult.failTargetTooSmall⟩ := by
  have hD0 : D ≠ 0 := ne_of_gt hD
  unfold compress_video
  rw [hin, hrc, hp]
  simp [hD0, hsmall]

/-- C3 witness: probed duration D = 600 seconds with target size S = 1 MB
trips the `TargetTooSmall` check without an encoder run. -/
theorem C3_target_too_small_witness :
    compress_video ⟨true, 0, "600.000000", 0, "", true⟩ "in.mov" "out.mp4" 1 =
      ⟨true, none, CResult.failTargetTooSmall⟩ :=
  C3_target_too_small ⟨true, 0, "600.000000", 0, "", true⟩ "in.mov" "out.mp4" 1 600 rfl rfl
    parsePyFloat_600 (by norm_num) (by norm_num) (by norm_num)

/-- C5: whenever the encoder subprocess was invoked, exited zero, and the
output path does not exist afterward, both operations fail with
`OutputMissing` rather than succeed. -/
theorem C5_output_missing (w : World) (i o : String) (S : ℚ) (abr : Int)
    (hrc : w.encodeReturncode = 0) (hout : w.outputIsFileAfter = false) :
    ((compress_video w i o S).encoderInvoked.isSome = true →
      (compress_video w i o S).result = CResult.failOutputMissing) ∧
    ((extract_audio w i o abr).encoderInvoked.isSome = true →
      (extract_audio w i o abr).result = EResult.failOutputMissing) := by
  refine ⟨?_, ?_⟩
  · unfold compress_video
    (repeat' split) <;> (try simp_all)
    all_goals (split <;> simp_all)
  · unfold extract_audio
    (repeat' split) <;> (try simp_all)

/-- Evaluation of a compression run whose encoder exits zero while the
output file is missing afterward: the encoder was invoked. -/
theorem compress_missing_output_eval :
    compress_video ⟨true, 0, "120.000000", 0, "", false⟩ "in.mov" "out.mp4" 10 =
      ⟨true, some ⟨"in.mov", 567, 131, "out.mp4"⟩, CResult.failOutputMissing⟩ := by
  unfold compress_video
  norm_num [parsePyFloat_120, pyTrunc]

/-- C5 witness: a concrete run in which the encoder exits zero but the
output file is missing afterward, for each operation. -/
theorem C5_output_missing_witness :
    (compress_video ⟨true, 0, "120.000000", 0, "", false⟩ "in.mov" "out.mp4" 10).result =
        CResult.failOutputMissing ∧
      (extract_audio ⟨true, 0, "120.000000", 0, "", false⟩ "in.mov" "out.mp3" 192).result =
        EResult.failOutputMissing := by
  constructor
  · exact (C5_output_missing ⟨true, 0, "120.000000", 0, "", false⟩ "in.mov" "out.mp4" 10 192
      rfl rfl).1 (by rw [compress_missing_output_eval]; rfl)
  · exact (C5_output_missing ⟨true, 0, "120.000000", 0, "", false⟩ "in.mov" "out.mp3" 192 10
      rfl rfl).2 (by decide)

/-- C7: CLI validation.  With no arguments the program prints the usage
summary and exits 0.  An argparse failure (non-numeric or missing
target-size value) prints an error and exits with status 2.  A parsed
compression-mode target size that is not positive prints an error and
exits with status 1. -/
theorem C7_cli_validation (argvTail : List String) (parse : ArgparseOutcome)
    (w : World) (size : ℚ) (abr : Int) (i o : String) :
    (cliMain [] parse w = CliOutcome.usageExit0 ∧ CliOutcome.usageExit0.exitCode = 0) ∧
    (argvTail ≠ [] → argvTail.contains "--ui" = false →
      (cliMain argvTail ArgparseOutcome.exit2 w).exitCode ≠ 0 ∧
      (cliMain argvTail ArgparseOutcome.exit2 w).printsError = true) ∧
    (argvTail ≠ [] → argvTail.contains "--ui" = false → size ≤ 0 →
      (cliMain argvTail (ArgparseOutcome.ok (CliMode.compressMode size) abr i o) w).exitCode ≠ 0 ∧
      (cliMain argvTail (ArgparseOutcome.ok (CliMode.compressMode size) abr i o) w).printsError
        = true) := by
  refine ⟨⟨by unfold cliMain; simp, rfl⟩, ?_, ?_⟩
  · intro h1 h2
    unfold cliMain
    rw [if_neg h1, h2]
    simp [CliOutcome.exitCode, CliOutcome.printsError]
  · intro h1 h2 h3
    unfold cliMain
    rw [if_neg h1, h2]
    rcases Bool.eq_false_or_eq_true w.inputIsFile with hf | hf <;>
      norm_num [h3, hf, CliOutcome.exitCode, CliOutcome.printsError]

/-- C7 witness: target size `-5` in compression mode exits non-zero with a
printed error; the separately validated no-argument invocation is covered
by the hypothesis-free first conjunct. -/
theorem C7_cli_validation_witness :
    (cliMain ["in.mp4", "out.mp4", "-s", "-5"]
        (ArgparseOutcome.ok (CliMode.compressMode (-5)) 192 "in.mp4" "out.mp4")
        ⟨true, 0, "120.0", 0, "", true⟩).exitCode ≠ 0 ∧
    (cliMain ["in.mp4", "out.mp4", "-s", "-5"]
        (ArgparseOutcome.ok (CliMode.compressMode (-5)) 192 "in.mp4" "out.mp4")
        ⟨true, 0, "120.0", 0, "", true⟩).printsError = true :=
  (C7_cli_validation ["in.mp4", "out.mp4", "-s", "-5"] ArgparseOutcome.exit2
    ⟨true, 0, "120.0", 0, "", true⟩ (-5) 192 "in.mp4" "out.mp4").2.2 (by simp) (by decide)
    (by norm_num)

/-- Appending strings concatenates their character lists. -/
theorem string_data_append (a b : String) : (a ++ b).data = a.data ++ b.data := rfl

/-- Strings are equal when their character lists are. -/
theorem string_eq_of_data_eq (a b : String) (h : a.data = b.data) : a = b :=
  congrArg String.mk h

/-- The basename fold never produces a slash, whatever the accumulator. -/
theorem slash_not_mem_basename_foldl (l : List Char) :
    ∀ acc : List Char, '/' ∉ acc →
      '/' ∉ l.foldl (fun acc c => if c = '/' then [] else acc ++ [c]) acc := by
  induction l with
  | nil =>
    intro acc h
    simpa using h
  | cons c rest ih =>
    intro acc h
    simp only [List.foldl_cons]
    by_cases hc : c = '/'
    · rw [if_pos hc]
      exact ih [] (by simp)
    · rw [if_neg hc]
      refine ih _ ?_
      intro hmem
      rcases List.mem_append.mp hmem with h1 | h1
      · exact h h1
      · rw [List.mem_singleton] at h1
        exact hc h1.symm

/-- A basename contains no slash. -/
theorem slash_not_mem_basenameChars (l : List Char) : '/' ∉ basenameChars l :=
  slash_not_mem_basename_foldl l [] (by simp)

/-- The splitext root of a basename contains no slash. -/
theorem slash_not_mem_stem (p : String) :
    '/' ∉ (pySplitextRoot (pyBasename p)).data := by
  intro h
  exact slash_not_mem_basenameChars p.data
    (List.take_subset ((pyBasename p).data.length - (extChars (pyBasename p).data).length)
      (pyBasename p).data h)

/-- The head character of a slash-free stem with `.mp3` appended is never
a slash. -/
theorem stem_mp3_head_ne_slash (s : String) (hs : '/' ∉ s.data) :
    (s ++ ".mp3").data.head? ≠ some '/' := by
  rw [string_data_append]
  cases hsd : s.data with
  | nil => decide
  | cons c t =>
    intro hh
    rw [List.cons_append, List.head?_cons] at hh
    injection hh with hc
    exact hs (by rw [hsd, hc]; exact List.mem_cons_self _ _)

/-- With a fixed directory, `pyJoin` is injective on final components
that do not start with a slash. -/
theorem pyJoin_right_injective (d x y : String)
    (hx : x.data.head? ≠ some '/') (hy : y.data.head? ≠ some '/')
    (h : pyJoin d x = pyJoin d y) : x = y := by
  unfold pyJoin at h
  rw [if_neg hx, if_neg hy] at h
  by_cases hd : d.data = [] ∨ d.data.getLast? = some '/'
  · rw [if_pos hd, if_pos hd] at h
    have h2 := congrArg String.data h
    rw [string_data_append, string_data_append] at h2
    exact string_eq_of_data_eq _ _ (List.append_cancel_left h2)
  · rw [if_neg hd, if_neg hd] at h
    have h2 := congrArg String.data h
    rw [string_data_append, string_data_append] at h2
    exact string_eq_of_data_eq _ _ (List.append_cancel_left h2)

/-- C8 counterexample: the distinct input paths `/a/clip.mov` and
`/b/clip.mov` share the basename stem `clip`, so the convert handler
derives the same output path for both. -/
theorem C8_distinct_inputs_same_output :
    convertOutputPath "/Users/matan/Movies" "/a/clip.mov" =
        convertOutputPath "/Users/matan/Movies" "/b/clip.mov" ∧
      "/a/clip.mov" ≠ "/b/clip.mov" := by
  decide

/-- C8 amended: each convert call writes an output path derived from its
own input's basename stem, and two inputs receive distinct output paths
whenever their basename stems differ (inputs sharing a stem collide). -/
theorem C8_amended_distinct_stems_distinct_outputs (d i1 i2 : String)
    (h : pySplitextRoot (pyBasename i1) ≠ pySplitextRoot (pyBasename i2)) :
    convertOutputPath d i1 ≠ convertOutputPath d i2 := by
  intro heq
  apply h
  have hx := stem_mp3_head_ne_slash (pySplitextRoot (pyBasename i1)) (slash_not_mem_stem i1)
  have hy := stem_mp3_head_ne_slash (pySplitextRoot (pyBasename i2)) (slash_not_mem_stem i2)
  have h2 := pyJoin_right_injective d _ _ hx hy heq
  have h3 := congrArg String.data h2
  rw [string_data_append, string_data_append] at h3
  exact string_eq_of_data_eq _ _ (List.append_cancel_right h3)

/-- C8 amended witness: distinct basename stems `clip` and `song` map to
distinct output paths. -/
theorem C8_amended_witness :
    convertOutputPath "/out" "/a/clip.mov" ≠ convertOutputPath "/out" "/b/song.mov" :=
  C8_amended_distinct_stems_distinct_outputs "/out" "/a/clip.mov" "/b/song.mov" (by decide)

/-- C9: contract of the browse endpoint.  A missing directory or a
permission failure yields an error payload with an empty item list;
otherwise the response has no error, echoes the requested path, its items
are exactly the kept entries of the listing (subdirectories and files
whose lowercased name ends in `.mov`), and the item list is sorted with
directories before files and case-insensitive names within each group. -/
theorem C9_browse_contract (path : String) (fs : BrowseFs) :
    (fs.isDirPath = false → browse path fs = ⟨some "Directory not found", path, []⟩) ∧
    (fs.isDirPath = true → fs.permissionDenied = true →
      browse path fs = ⟨some "Permission denied", path, []⟩) ∧
    (fs.isDirPath = true → fs.permissionDenied = false →
      (browse path fs).error = none ∧
      (browse path fs).current_path = path ∧
      (browse path fs).items.Perm ((fs.listing.filter keepEntry).map (mkItem path)) ∧
      List.Sorted browseLe (browse path fs).items) := by
  refine ⟨?_, ?_, ?_⟩
  · intro h
    unfold browse
    rw [h]
    simp
  · intro h1 h2
    unfold browse
    rw [h1, h2]
    simp
  · intro h1 h2
    unfold browse
    rw [h1, h2]
    simp only [Bool.true_eq_false, Bool.false_eq_true, if_false]
    refine ⟨trivial, trivial, ?_, ?_⟩
    · exact (List.perm_insertionSort browseLe _).trans
        (((List.perm_insertionSort entryNameLe fs.listing).filter keepEntry).map (mkItem path))
    · exact List.sorted_insertionSort browseLe _

/-- C9 witness: a directory listing holding one subdirectory, one `.mov`
file, and one `.txt` file. -/
theorem C9_browse_contract_witness :
    (browse "/d" ⟨true, false, [⟨"B.mov", false⟩, ⟨"sub", true⟩, ⟨"a.txt", false⟩]⟩).error
        = none ∧
      (browse "/d" ⟨true, false, [⟨"B.mov", false⟩, ⟨"sub", true⟩, ⟨"a.txt", false⟩]⟩).current_path
        = "/d" ∧
      (browse "/d" ⟨true, false, [⟨"B.mov", false⟩, ⟨"sub", true⟩, ⟨"a.txt", false⟩]⟩).items.Perm
        (((⟨true, false, [⟨"B.mov", false⟩, ⟨"sub", true⟩, ⟨"a.txt", false⟩]⟩ :
          BrowseFs).listing.filter keepEntry).map (mkItem "/d")) ∧
      List.Sorted browseLe
        (browse "/d" ⟨true, false, [⟨"B.mov", false⟩, ⟨"sub", true⟩, ⟨"a.txt", false⟩]⟩).items :=
  (C9_browse_contract "/d"
    ⟨true, false, [⟨"B.mov", false⟩, ⟨"sub", true⟩, ⟨"a.txt", false⟩]⟩).2.2 rfl rfl

end VC
